import Mathlib

/-!
Shallow embedding of the CARL context-adaptive environment wrappers
(`meta_grasp.py`, `carl_mario.py`, `meta_mario_env.py`, `carl_dmcontrol.py`)
and proofs about their context-injection logic.

Python numeric literals in the sources are exact decimals, so they are
modelled as rationals; Python `int` values as `Int`.  A Python `dict` used
as a context is modelled as an association list whose lookup mirrors
`d[k]` (returning `none` models a `KeyError`).
-/

/-- A Python value as it appears in the context dictionaries of the repo:
an `int`, a `float` (an exact decimal literal, modelled as a rational), or
an opaque external array produced by `toad_gan.generate_initial_noise`
(modelled by the arguments it was built from). -/
inductive PyVal where
  | int (n : Int)
  | float (q : ℚ)
  | noiseArr (width height levelIndex : Int)
deriving DecidableEq, Repr

/-- The `d[k]` on a Python dict modelled as an association list: `none` models a
`KeyError`. -/
def dictLookup (d : List (String × PyVal)) (k : String) : Option PyVal :=
  (d.find? (fun p => p.1 == k)).map Prod.snd

/-- A context: a Python dict from parameter names to values. -/
abbrev Ctx := List (String × PyVal)

/-- The declared type of a context feature in a `CONTEXT_BOUNDS` table
(`int` or `float`). -/
inductive PyTy where
  | int
  | float
deriving DecidableEq, Repr

/-- The rational magnitude of a numeric `PyVal` (`none` for the opaque
array value, which has no scalar magnitude). -/
def PyVal.ratOf : PyVal → Option ℚ
  | .int n => some n
  | .float q => some q
  | .noiseArr _ _ _ => none

/-- Whether a value conforms to a declared `int`/`float` type. -/
def PyVal.hasTy : PyVal → PyTy → Bool
  | .int _, .int => true
  | .float _, .float => true
  | _, _ => false

namespace MetaGrasp

/-- The `DEFAULT_CONTEXT` of `src/envs/brax/meta_grasp.py`, lines 14-24. -/
def DEFAULT_CONTEXT : Ctx := [
  ("joint_stiffness", .int 5000),
  ("gravity", .float (Rat.divInt (-98) 10)),
  ("friction", .float (Rat.divInt 6 10)),
  ("angular_damping", .float (Rat.divInt (-5) 100)),
  ("actuator_strength", .int 300),
  ("joint_angular_damping", .int 50),
  ("target_radius", .float (Rat.divInt 11 10)),
  ("target_distance", .float (Rat.divInt 100 10)),
  ("target_height", .float (Rat.divInt 80 10))
]

/-- A bound entry `(lower, upper, type)`; `none` models `-np.inf` or
`np.inf`. -/
structure Bound where
  lo : Option ℚ
  hi : Option ℚ
  ty : PyTy
deriving DecidableEq, Repr

/-- The `CONTEXT_BOUNDS` of `src/envs/brax/meta_grasp.py`, lines 26-36. -/
def CONTEXT_BOUNDS : List (String × Bound) := [
  ("joint_stiffness", ⟨some 1, none, .int⟩),
  ("gravity", ⟨none, some (Rat.divInt (-1) 10), .float⟩),
  ("friction", ⟨none, none, .float⟩),
  ("angular_damping", ⟨none, none, .float⟩),
  ("actuator_strength", ⟨some 1, none, .int⟩),
  ("joint_angular_damping", ⟨some 0, some 360, .int⟩),
  ("target_radius", ⟨some (Rat.divInt 1 10), none, .float⟩),
  ("target_distance", ⟨some (Rat.divInt 1 10), none, .float⟩),
  ("target_height", ⟨some (Rat.divInt 1 10), none, .float⟩)
]

/-- Whether a value lies within a bound entry and conforms to its declared
type. -/
def inBound (v : PyVal) (b : Bound) : Bool :=
  v.hasTy b.ty &&
    match v.ratOf with
    | none => false
    | some q =>
      (match b.lo with | none => true | some lo => decide (lo ≤ q)) &&
      (match b.hi with | none => true | some hi => decide (q ≤ hi))

/-- A joint of the brax config dict: the two attributes
`MetaGrasp._update_context` writes, plus an opaque remainder standing for
all the attributes it leaves alone. -/
structure Joint where
  angularDamping : PyVal
  stiffness : PyVal
  rest : String
deriving DecidableEq, Repr

/-- An actuator of the brax config dict: the attribute the update writes
plus an opaque remainder. -/
structure Actuator where
  strength : PyVal
  rest : String
deriving DecidableEq, Repr

/-- A body of the brax config dict: its name (used by `body_idx`), its
mass, and an opaque remainder. -/
structure Body where
  name : String
  mass : PyVal
  rest : String
deriving DecidableEq, Repr

/-- The brax simulator config dict (`MessageToDict` of the parsed
`_SYSTEM_CONFIG`): the fields `_update_context` touches plus an opaque
remainder for every other top-level field. -/
structure BraxConfig where
  gravityZ : PyVal
  friction : PyVal
  angularDamping : PyVal
  joints : List Joint
  actuators : List Actuator
  bodies : List Body
  rest : String
deriving DecidableEq, Repr

/-- The `brax.System(json_format.Parse(json.dumps(config), brax.Config()))`:
the rebuilt system, modelled by the config it was built from. -/
structure BraxSystem where
  config : BraxConfig
deriving DecidableEq, Repr

/-- The `sys.body_idx[name]`: the index of the body with the given name
(`none` models the `KeyError` when no body has that name). -/
def BraxSystem.body_idx (s : BraxSystem) (name : String) : Option Nat :=
  s.config.bodies.findIdx? (fun b => b.name == name)

/-- The fields of the wrapped `Grasp` environment that
`MetaGrasp._update_context` assigns. -/
structure GraspEnv where
  sys : BraxSystem
  object_idx : Nat
  target_idx : Nat
  hand_idx : Nat
  palm_idx : Nat
  target_radius : PyVal
  target_distance : PyVal
  target_height : PyVal
deriving DecidableEq, Repr

/-- The loop `for j in range(len(config["joints"]))` of
`_update_context`: each iteration looks up `joint_angular_damping` and
`joint_stiffness` in the context and assigns them to the joint. -/
def updateJoints (ctx : Ctx) : List Joint → Option (List Joint)
  | [] => some []
  | j :: js => do
    let jad ← dictLookup ctx "joint_angular_damping"
    let st ← dictLookup ctx "joint_stiffness"
    let tl ← updateJoints ctx js
    some ({ j with angularDamping := jad, stiffness := st } :: tl)

/-- The loop `for a in range(len(config["actuators"]))` of
`_update_context`: each iteration looks up `actuator_strength` and assigns
it to the actuator. -/
def updateActuators (ctx : Ctx) : List Actuator → Option (List Actuator)
  | [] => some []
  | a :: as_ => do
    let st ← dictLookup ctx "actuator_strength"
    let tl ← updateActuators ctx as_
    some ({ a with strength := st } :: tl)

/-- The dict-edit phase of `MetaGrasp._update_context` (`meta_grasp.py`
lines 66-77) acting on a deep copy of the base config.  `none` models a
raised `KeyError` / `IndexError`.  The edits follow source order:
gravity, friction, angularDamping, the joint loop, the actuator loop,
then `config["bodies"][0]["mass"] = self.context["torso_mass"]` (Python
evaluates the right-hand side lookup before indexing the target). -/
def applyContextToConfig (ctx : Ctx) (config : BraxConfig) :
    Option BraxConfig := do
  let g ← dictLookup ctx "gravity"
  let fr ← dictLookup ctx "friction"
  let ad ← dictLookup ctx "angular_damping"
  let joints ← updateJoints ctx config.joints
  let actuators ← updateActuators ctx config.actuators
  let tm ← dictLookup ctx "torso_mass"
  match config.bodies with
  | [] => none
  | b0 :: bs =>
    some { config with
           gravityZ := g, friction := fr, angularDamping := ad,
           joints := joints, actuators := actuators,
           bodies := { b0 with mass := tm } :: bs }

/-- The tail of `_update_context` (`meta_grasp.py` lines 78-85): rebuild
the system from the edited config, resolve the four body indices on it
and copy the three target attributes from the context. -/
def rebuildEnv (ctx : Ctx) (cfg : BraxConfig) : Option GraspEnv := do
  let sys : BraxSystem := ⟨cfg⟩
  let oi ← sys.body_idx "Object"
  let ti ← sys.body_idx "Target"
  let hi ← sys.body_idx "HandThumbProximal"
  let pi_ ← sys.body_idx "HandPalm"
  let tr ← dictLookup ctx "target_radius"
  let td ← dictLookup ctx "target_distance"
  let th ← dictLookup ctx "target_height"
  some { sys := sys, object_idx := oi, target_idx := ti, hand_idx := hi,
         palm_idx := pi_, target_radius := tr, target_distance := td,
         target_height := th }

/-- The whole of `_update_context`: the dict edits followed by the
environment rebuild, in source order. -/
def updateContextConfig (ctx : Ctx) (config : BraxConfig) (_env : GraspEnv) :
    Option (BraxConfig × GraspEnv) := do
  let cfg ← applyContextToConfig ctx config
  let env' ← rebuildEnv ctx cfg
  some (cfg, env')

/-- The mutable state of a `MetaGrasp` wrapper that `_update_context`
reads or writes: the stored `base_config`, the current context, and the
wrapped environment. -/
structure State where
  base_config : BraxConfig
  context : Ctx
  env : GraspEnv
deriving DecidableEq, Repr

/-- The full method call `self._update_context()`: it deep-copies
`self.base_config` (`config = copy.deepcopy(self.base_config)`, so the
edits below act on a fresh structure and not on the stored one), edits the
copy, and replaces the environment fields; `self.base_config` and
`self.context` are not assigned. -/
def State.updateContext (s : State) : Option State := do
  let (_, env) ← updateContextConfig s.context s.base_config s.env
  some { s with env := env }

/-- Lines 52-53 of `meta_grasp.py`: `if not contexts: contexts =
{0: DEFAULT_CONTEXT}`. -/
def resolveContexts (contexts : List (Int × Ctx)) : List (Int × Ctx) :=
  if contexts.isEmpty then [(0, DEFAULT_CONTEXT)] else contexts

end MetaGrasp

/-- Python `int(x)` on a numeric value: identity on ints, truncation
toward zero on floats, a `TypeError` (modelled as `none`) on the opaque
array. -/
def PyVal.pyInt : PyVal → Option Int
  | .int n => some n
  | .float q => some (if q < 0 then ⌈q⌉ else ⌊q⌋)
  | .noiseArr _ _ _ => none

/-- Modelled from the spec: `generate_initial_noise` of the external
TOAD-GAN level generator (`toad_gan.py` is not among the source files).
The spec says contexts are "optionally perturbed with noise" and treats
the generator as an external library; the produced noise array is
modelled as an opaque value determined by the arguments it was built
from. -/
def generate_initial_noise (width height levelIndex : Int) : PyVal :=
  .noiseArr width height levelIndex

/-- Modelled from the spec: a level produced by the external TOAD-GAN
`generate_level` (the spec's "game level generator's arguments"); the
level is opaque and is modelled by the arguments it was generated from.
`filter_unplayable = none` records a call that left that keyword at the
generator's own default. -/
structure Level where
  width : Int
  height : Int
  level_index : PyVal
  initial_noise : PyVal
  filter_unplayable : Option Bool
deriving DecidableEq, Repr

/-- Modelled from the spec: the external TOAD-GAN `generate_level`, "a
game level generator" whose output is delegated to a library this code
does not own; modelled as an opaque constructor recording its
arguments. -/
def generate_level (width height : Int) (level_index : PyVal)
    (initial_noise : PyVal) (filter_unplayable : Option Bool) : Level :=
  ⟨width, height, level_index, initial_noise, filter_unplayable⟩

namespace MetaMario

/-- The `INITIAL_WIDTH` of `src/envs/mario/meta_mario_env.py`. -/
def INITIAL_WIDTH : Int := 200

/-- The `INITIAL_LEVEL_INDEX` of `src/envs/mario/meta_mario_env.py`. -/
def INITIAL_LEVEL_INDEX : Int := 0

/-- The `INITIAL_HEIGHT` of `src/envs/mario/meta_mario_env.py`. -/
def INITIAL_HEIGHT : Int := 16

/-- The `DEFAULT_CONTEXT` of `src/envs/mario/meta_mario_env.py`, lines
13-17. -/
def DEFAULT_CONTEXT : Ctx := [
  ("level_index", .int INITIAL_LEVEL_INDEX),
  ("width", .int INITIAL_WIDTH),
  ("noise", generate_initial_noise INITIAL_WIDTH INITIAL_HEIGHT INITIAL_LEVEL_INDEX)
]

/-- A `CONTEXT_BOUNDS` entry of `meta_mario_env.py`: either a numeric
range with a declared type or a categorical feature with its choices
(`np.arange(0, 14)`). -/
inductive MBound where
  | range (lo hi : Option ℚ) (ty : PyTy)
  | categorical (choices : List Int)
deriving DecidableEq, Repr

/-- The `CONTEXT_BOUNDS` of `src/envs/mario/meta_mario_env.py`, lines
19-23. -/
def CONTEXT_BOUNDS : List (String × MBound) := [
  ("level_index", .categorical ((List.range 14).map Int.ofNat)),
  ("width", .range (some 16) none .int),
  ("noise", .range (some (-1)) (some 1) .float)
]

/-- The `CATEGORICAL_CONTEXT_FEATURES` of `src/envs/mario/meta_mario_env.py`,
line 24. -/
def CATEGORICAL_CONTEXT_FEATURES : List String := ["level_index"]

/-- Line 53 of `meta_mario_env.py`:
`self.whitelist_gaussian_noise = [k for k in DEFAULT_CONTEXT.keys() if k
not in CATEGORICAL_CONTEXT_FEATURES]`. -/
def whitelist_gaussian_noise : List String :=
  (DEFAULT_CONTEXT.map Prod.fst).filter
    (fun k => !(CATEGORICAL_CONTEXT_FEATURES.contains k))

/-- Lines 40-41 of `meta_mario_env.py`: `if not contexts: contexts =
{0: DEFAULT_CONTEXT}`. -/
def resolveContexts (contexts : List (Int × Ctx)) : List (Int × Ctx) :=
  if contexts.isEmpty then [(0, DEFAULT_CONTEXT)] else contexts

/-- The `MetaMarioEnv._update_context` (`meta_mario_env.py` lines 57-64):
generate one level from the current context (`width` and `level_index`
cast with `int()`, height fixed at 16, no `filter_unplayable` argument)
and set `env.levels` to the one-element list holding it.  `none` models a
raised `KeyError`/`TypeError`. -/
def updateContext (context : Ctx) : Option (List Level) := do
  let w ← dictLookup context "width"
  let wi ← w.pyInt
  let li ← dictLookup context "level_index"
  let lii ← li.pyInt
  let no ← dictLookup context "noise"
  some [generate_level wi 16 (.int lii) no none]

end MetaMario

namespace CARLMario

/-- Modelled from the spec: `INITIAL_WIDTH` is imported from
`carl.envs.mario.carl_mario_definitions`, a module not among the source
files; the sibling implementation `meta_mario_env.py` sets the same
constant to 200, and no theorem below depends on the value. -/
def INITIAL_WIDTH : Int := 200

/-- Modelled from the spec: `INITIAL_HEIGHT` imported from
`carl.envs.mario.carl_mario_definitions` (not among the source files);
the sibling `meta_mario_env.py` sets it to 16, and no theorem below
depends on the value. -/
def INITIAL_HEIGHT : Int := 16

/-- The fields of the wrapped `MarioEnv` that
`CARLMarioEnv._update_context` assigns. -/
structure MarioEnv where
  levels : List Level
  mario_state : PyVal
  mario_inertia : PyVal
deriving DecidableEq, Repr

/-- The state of a `CARLMarioEnv` read or written by `_update_context`:
the stored contexts (a dict, in iteration order), the `levels` cache, the
index and value of the current context, and the wrapped environment. -/
structure State where
  contexts : List (Int × Ctx)
  levels : List Level
  context_index : Nat
  context : Ctx
  env : MarioEnv
deriving DecidableEq, Repr

/-- The loop `for context in self.contexts.values()` of
`CARLMarioEnv._update_context`: one `generate_level` call per stored
context, with `width=INITIAL_WIDTH`, `height=INITIAL_HEIGHT`,
`level_index=context["level_index"]`, `initial_noise=context["noise"]`
and `filter_unplayable=True`. -/
def generateAll : List (Int × Ctx) → Option (List Level)
  | [] => some []
  | (_, ctx) :: rest => do
    let li ← dictLookup ctx "level_index"
    let no ← dictLookup ctx "noise"
    let tl ← generateAll rest
    some (generate_level INITIAL_WIDTH INITIAL_HEIGHT li no (some true) :: tl)

/-- The `CARLMarioEnv._update_context` (`carl_mario.py` lines 53-65): when
`self.levels` is empty it first generates one level per stored context;
then it always copies `mario_state` and `mario_inertia` from the current
context onto the environment and sets `env.levels` to the one-element
list `[self.levels[self.context_index]]`.  `none` models a raised
`KeyError`/`IndexError`. -/
def State.updateContext (s : State) : Option State := do
  let levels ←
    if s.levels.isEmpty then generateAll s.contexts else some s.levels
  let ms ← dictLookup s.context "mario_state"
  let mi ← dictLookup s.context "mario_inertia"
  let lvl ← levels.get? s.context_index
  some { s with
         levels := levels,
         env := { levels := [lvl], mario_state := ms, mario_inertia := mi } }

/-- Lines 34-35 of `carl_mario.py`: `if not contexts: contexts =
{0: DEFAULT_CONTEXT}`.  `DEFAULT_CONTEXT` is imported from
`carl_mario_definitions`, a module not among the source files, so it is
taken here as an explicit argument. -/
def resolveContexts (DEFAULT_CONTEXT : Ctx) (contexts : List (Int × Ctx)) :
    List (Int × Ctx) :=
  if contexts.isEmpty then [(0, DEFAULT_CONTEXT)] else contexts

/-- Everything `CARLMarioEnv.__init__` hands to `CARLEnv.__init__`
(`carl_mario.py` lines 36-48).  External objects (the wrapped gym env,
the logger, the context encoder) are opaque tags; the superclass state is
a function of exactly these arguments. -/
structure SuperArgs where
  env : String
  contexts : List (Int × Ctx)
  instance_mode : String
  hide_context : Bool
  add_gaussian_noise_to_context : Bool
  gaussian_noise_std_percentage : ℚ
  logger : Option String
  scale_context_features : String
  default_context : Option Ctx
  dict_observation_space : Bool
  context_encoder : Option String
deriving DecidableEq, Repr

/-- The data flow of `CARLMarioEnv.__init__` (`carl_mario.py` lines
19-51) up to the superclass call: resolve the contexts and build the
argument record for `CARLEnv.__init__`, with `hide_context=True` and
`scale_context_features="no"` hardcoded regardless of the parameters of
the same names.  Everything the constructor does afterwards
(`self.levels = []; self._update_context()`) reads only state derived
from these arguments. -/
def constructSuperArgs (DEFAULT_CONTEXT : Ctx) (env : String)
    (contexts : List (Int × Ctx)) (instance_mode : String)
    (hide_context : Bool) (add_gaussian_noise_to_context : Bool)
    (gaussian_noise_std_percentage : ℚ) (logger : Option String)
    (scale_context_features : String) (default_context : Option Ctx)
    (state_context_features : Option (List String))
    (dict_observation_space : Bool) (context_encoder : Option String) :
    SuperArgs :=
  let _ := hide_context
  let _ := scale_context_features
  let _ := state_context_features
  { env := env,
    contexts := resolveContexts DEFAULT_CONTEXT contexts,
    instance_mode := instance_mode,
    hide_context := true,
    add_gaussian_noise_to_context := add_gaussian_noise_to_context,
    gaussian_noise_std_percentage := gaussian_noise_std_percentage,
    logger := logger,
    scale_context_features := "no",
    default_context := default_context,
    dict_observation_space := dict_observation_space,
    context_encoder := context_encoder }

end CARLMario

namespace MetaMario

/-- Everything `MetaMarioEnv.__init__` hands to `MetaEnv.__init__`
(`meta_mario_env.py` lines 42-53).  External objects (the wrapped gym
env, the logger) are opaque tags. -/
structure SuperArgs where
  env : String
  contexts : List (Int × Ctx)
  instance_mode : String
  hide_context : Bool
  add_gaussian_noise_to_context : Bool
  gaussian_noise_std_percentage : ℚ
  logger : Option String
  scale_context_features : String
  default_context : Option Ctx
deriving DecidableEq, Repr

/-- The data flow of `MetaMarioEnv.__init__` (`meta_mario_env.py` lines
28-55) up to the superclass call: resolve the contexts and build the
argument record for `MetaEnv.__init__`, with `hide_context=True` and
`scale_context_features="no"` hardcoded regardless of the parameters of
the same names.  Everything the constructor does afterwards (setting
`whitelist_gaussian_noise` from module constants and calling
`self._update_context()`) reads only module constants and state derived
from these arguments. -/
def constructSuperArgs (env : String) (contexts : List (Int × Ctx))
    (instance_mode : String) (hide_context : Bool)
    (add_gaussian_noise_to_context : Bool)
    (gaussian_noise_std_percentage : ℚ) (logger : Option String)
    (scale_context_features : String) (default_context : Option Ctx) :
    SuperArgs :=
  let _ := hide_context
  let _ := scale_context_features
  { env := env,
    contexts := resolveContexts contexts,
    instance_mode := instance_mode,
    hide_context := true,
    add_gaussian_noise_to_context := add_gaussian_noise_to_context,
    gaussian_noise_std_percentage := gaussian_noise_std_percentage,
    logger := logger,
    scale_context_features := "no",
    default_context := default_context }

end MetaMario

namespace CARLDmc

/-- Modelled from the spec: `load_dmc_env` of `carl.envs.dmc.loader`, a
module not among the source files.  The spec says a context is "used to
rebuild or mutate a live simulator instance"; the loader builds a fresh
dm_control environment for a domain and task with the given context,
context mask and environment kwargs, and is modelled as an opaque record
of its arguments (`flat_observation` being the only kwarg the call site
passes). -/
structure LoadedDmcEnv where
  domain_name : String
  task_name : String
  context : Ctx
  context_mask : Option (List String)
  flat_observation : Bool
deriving DecidableEq, Repr

/-- Modelled from the spec: the `load_dmc_env` call itself, recording its
arguments. -/
def load_dmc_env (domain_name task_name : String) (context : Ctx)
    (context_mask : Option (List String)) (flat_observation : Bool) :
    LoadedDmcEnv :=
  ⟨domain_name, task_name, context, context_mask, flat_observation⟩

/-- The `self.env` slot of a `CARLDmcEnv`: the environment the wrapper
started with, or a freshly loaded dm_control environment wrapped in
`MujocoToGymWrapper`. -/
inductive EnvSlot where
  | initial (tag : String)
  | mujocoToGym (inner : LoadedDmcEnv)
deriving DecidableEq, Repr

/-- The state of a `CARLDmcEnv` read or written by `_update_context`. -/
structure State where
  dict_observation_space : Bool
  domain : String
  task : String
  context : Ctx
  context_mask : Option (List String)
  env : EnvSlot
deriving DecidableEq, Repr

/-- The exception `_update_context` can raise. -/
inductive PyError where
  | notImplementedError
deriving DecidableEq, Repr

/-- The `CARLDmcEnv._update_context` (`carl_dmcontrol.py` lines 172-177):
raise `NotImplementedError` when `dict_observation_space` is set,
otherwise load a fresh dm_control environment for the stored domain and
task with the current context and context mask (with
`environment_kwargs={"flat_observation": True}`) and replace `self.env`
with it wrapped in `MujocoToGymWrapper`. -/
def State.updateContext (s : State) : Except PyError State :=
  if s.dict_observation_space then .error .notImplementedError
  else .ok { s with
             env := .mujocoToGym
               (load_dmc_env s.domain s.task s.context s.context_mask true) }

end CARLDmc

namespace WorldParams

/-- The `TIMING_PARAMETERS` of `carl_dmcontrol.py` lines 92-95. -/
def TIMING_PARAMETERS : List String := ["timestep", "apirate"]

/-- The `SOLVER_PARAMETERS` of `carl_dmcontrol.py` lines 96-101. -/
def SOLVER_PARAMETERS : List String :=
  ["impratio", "tolerance", "noslip_tolerance", "mpr_tolerance"]

/-- The `PHYSICAL_CONSTANTS` of `carl_dmcontrol.py` lines 102-108. -/
def PHYSICAL_CONSTANTS : List String :=
  ["gravity", "wind", "magnetic", "density", "viscosity"]

/-- The `OVERRIDE_CONTACT_SOLVER_PARAMETERS` of `carl_dmcontrol.py` lines
109-113. -/
def OVERRIDE_CONTACT_SOLVER_PARAMETERS : List String :=
  ["o_margin", "o_solref", "o_solimp"]

/-- The `DISCRETE_SETTINGS` of `carl_dmcontrol.py` lines 114-125. -/
def DISCRETE_SETTINGS : List String :=
  ["integrator", "collision", "cone", "jacobian", "solver", "iterations",
   "noslip_iterations", "mpr_iterations", "disableflags", "enableflags"]

/-- The `WORLD_PARAMETERS` of `carl_dmcontrol.py` lines 127-133, exactly as
written in the source: the concatenation ends with `TIMING_PARAMETERS` a
second time rather than `DISCRETE_SETTINGS`. -/
def WORLD_PARAMETERS : List String :=
  TIMING_PARAMETERS ++ SOLVER_PARAMETERS ++ PHYSICAL_CONSTANTS
    ++ OVERRIDE_CONTACT_SOLVER_PARAMETERS ++ TIMING_PARAMETERS

end WorldParams

/-! ### Concrete test fixtures -/

/-- A concrete context holding every key `MetaGrasp._update_context` looks
up: the default context extended with the `torso_mass` entry the default
lacks. -/
def graspTestContext : Ctx := ("torso_mass", .float 1) :: MetaGrasp.DEFAULT_CONTEXT

/-- A small concrete brax config with one joint, one actuator and the four
bodies the update looks up by name. -/
def graspTestConfig : MetaGrasp.BraxConfig :=
  { gravityZ := .float 0, friction := .float 0, angularDamping := .float 0,
    joints := [⟨.float 0, .float 0, "j0"⟩],
    actuators := [⟨.float 0, "a0"⟩],
    bodies := [⟨"Object", .float 2, "b0"⟩, ⟨"Target", .float 2, "b1"⟩,
               ⟨"HandThumbProximal", .float 2, "b2"⟩, ⟨"HandPalm", .float 2, "b3"⟩],
    rest := "base" }

/-- A concrete wrapped-environment record to start from. -/
def graspTestEnv : MetaGrasp.GraspEnv :=
  { sys := ⟨graspTestConfig⟩, object_idx := 0, target_idx := 0, hand_idx := 0,
    palm_idx := 0, target_radius := .float 0, target_distance := .float 0,
    target_height := .float 0 }

/-- A concrete `MetaGrasp` state on which `_update_context` succeeds. -/
def graspTestState : MetaGrasp.State :=
  { base_config := graspTestConfig, context := graspTestContext, env := graspTestEnv }

/-- The config `_update_context` produces from `graspTestConfig` under
`graspTestContext`, written out by hand. -/
def graspTestConfigUpdated : MetaGrasp.BraxConfig :=
  { gravityZ := .float (Rat.divInt (-98) 10), friction := .float (Rat.divInt 6 10),
    angularDamping := .float (Rat.divInt (-5) 100),
    joints := [⟨.int 50, .int 5000, "j0"⟩],
    actuators := [⟨.int 300, "a0"⟩],
    bodies := [⟨"Object", .float 1, "b0"⟩, ⟨"Target", .float 2, "b1"⟩,
               ⟨"HandThumbProximal", .float 2, "b2"⟩, ⟨"HandPalm", .float 2, "b3"⟩],
    rest := "base" }

/-- The state `_update_context` produces from `graspTestState`, written
out by hand. -/
def graspTestStateUpdated : MetaGrasp.State :=
  { base_config := graspTestConfig, context := graspTestContext,
    env := { sys := ⟨graspTestConfigUpdated⟩, object_idx := 0, target_idx := 1,
             hand_idx := 2, palm_idx := 3,
             target_radius := .float (Rat.divInt 11 10),
             target_distance := .float (Rat.divInt 100 10),
             target_height := .float (Rat.divInt 80 10) } }

/-- A concrete Mario context holding every key
`CARLMarioEnv._update_context` looks up. -/
def marioTestContext : Ctx :=
  [("level_index", .int 1), ("noise", .noiseArr 200 16 1),
   ("mario_state", .int 0), ("mario_inertia", .float (Rat.divInt 89 100))]

/-- A concrete `CARLMarioEnv` state with an empty level cache. -/
def marioTestState : CARLMario.State :=
  { contexts := [(0, marioTestContext)], levels := [], context_index := 0,
    context := marioTestContext,
    env := { levels := [], mario_state := .int 0, mario_inertia := .int 0 } }

/-- The level generated for `marioTestContext`. -/
def marioTestLevel : Level :=
  generate_level CARLMario.INITIAL_WIDTH CARLMario.INITIAL_HEIGHT (.int 1)
    (.noiseArr 200 16 1) (some true)

/-- The state `_update_context` produces from `marioTestState`, written
out by hand. -/
def marioTestStateUpdated : CARLMario.State :=
  { marioTestState with
    levels := [marioTestLevel],
    env := { levels := [marioTestLevel], mario_state := .int 0,
             mario_inertia := .float (Rat.divInt 89 100) } }

/-! ### Helper lemmas -/

theorem updateJoints_some (ctx : Ctx) (jad st : PyVal)
    (hjad : dictLookup ctx "joint_angular_damping" = some jad)
    (hst : dictLookup ctx "joint_stiffness" = some st) :
    ∀ js : List MetaGrasp.Joint,
      MetaGrasp.updateJoints ctx js =
        some (js.map fun j => { j with angularDamping := jad, stiffness := st }) := by
  intro js
  induction js with
  | nil => rfl
  | cons j tl ih => simp [MetaGrasp.updateJoints, hjad, hst, ih]

theorem updateActuators_some (ctx : Ctx) (st : PyVal)
    (hst : dictLookup ctx "actuator_strength" = some st) :
    ∀ as_ : List MetaGrasp.Actuator,
      MetaGrasp.updateActuators ctx as_ =
        some (as_.map fun a => { a with strength := st }) := by
  intro as_
  induction as_ with
  | nil => rfl
  | cons a tl ih => simp [MetaGrasp.updateActuators, hst, ih]

theorem updateJoints_sound (ctx : Ctx) :
    ∀ js js' : List MetaGrasp.Joint, MetaGrasp.updateJoints ctx js = some js' →
      js'.length = js.length ∧
      ∀ j ∈ js', dictLookup ctx "joint_angular_damping" = some j.angularDamping ∧
        dictLookup ctx "joint_stiffness" = some j.stiffness := by
  intro js
  induction js with
  | nil =>
    intro js' h
    simp only [MetaGrasp.updateJoints, Option.some.injEq] at h
    subst h
    exact ⟨rfl, by simp⟩
  | cons j tl ih =>
    intro js' h
    simp only [MetaGrasp.updateJoints, bind, Option.bind_eq_some, Option.some.injEq] at h
    obtain ⟨jad, hjad, st, hst, tl', htl, hcons⟩ := h
    obtain ⟨hlen, hmem⟩ := ih tl' htl
    subst hcons
    refine ⟨by simp [hlen], ?_⟩
    intro x hx
    rcases List.mem_cons.mp hx with hx | hx
    · subst hx; exact ⟨hjad, hst⟩
    · exact hmem x hx

theorem updateActuators_sound (ctx : Ctx) :
    ∀ as_ as' : List MetaGrasp.Actuator, MetaGrasp.updateActuators ctx as_ = some as' →
      as'.length = as_.length ∧
      ∀ a ∈ as', dictLookup ctx "actuator_strength" = some a.strength := by
  intro as_
  induction as_ with
  | nil =>
    intro as' h
    simp only [MetaGrasp.updateActuators, Option.some.injEq] at h
    subst h
    exact ⟨rfl, by simp⟩
  | cons a tl ih =>
    intro as' h
    simp only [MetaGrasp.updateActuators, bind, Option.bind_eq_some, Option.some.injEq] at h
    obtain ⟨st, hst, tl', htl, hcons⟩ := h
    obtain ⟨hlen, hmem⟩ := ih tl' htl
    subst hcons
    refine ⟨by simp [hlen], ?_⟩
    intro x hx
    rcases List.mem_cons.mp hx with hx | hx
    · subst hx; exact hst
    · exact hmem x hx

theorem applyContextToConfig_sound (ctx : Ctx) (config cfg : MetaGrasp.BraxConfig)
    (h : MetaGrasp.applyContextToConfig ctx config = some cfg) :
    dictLookup ctx "gravity" = some cfg.gravityZ ∧
    dictLookup ctx "friction" = some cfg.friction ∧
    dictLookup ctx "angular_damping" = some cfg.angularDamping ∧
    MetaGrasp.updateJoints ctx config.joints = some cfg.joints ∧
    MetaGrasp.updateActuators ctx config.actuators = some cfg.actuators ∧
    cfg.bodies.length = config.bodies.length ∧
    cfg.rest = config.rest := by
  unfold MetaGrasp.applyContextToConfig at h
  simp only [bind, Option.bind_eq_some] at h
  obtain ⟨g, hg, fr, hfr, ad, had, joints, hjoints, actuators, hacts, tm, htm, h⟩ := h
  cases hb : config.bodies with
  | nil => rw [hb] at h; simp at h
  | cons b0 bs =>
    rw [hb] at h
    simp only [Option.some.injEq] at h
    subst h
    exact ⟨hg, hfr, had, hjoints, hacts, by simp [hb], rfl⟩

theorem applyContextToConfig_none (ctx : Ctx) (config : MetaGrasp.BraxConfig)
    (htm : dictLookup ctx "torso_mass" = none) :
    MetaGrasp.applyContextToConfig ctx config = none := by
  cases hres : MetaGrasp.applyContextToConfig ctx config with
  | none => rfl
  | some cfg =>
    exfalso
    unfold MetaGrasp.applyContextToConfig at hres
    simp only [bind, Option.bind_eq_some] at hres
    obtain ⟨g, hg, fr, hfr, ad, had, js, hjs, as1, has1, tm, htm2, _⟩ := hres
    rw [htm] at htm2
    exact Option.noConfusion htm2

theorem rebuildEnv_sound (ctx : Ctx) (cfg : MetaGrasp.BraxConfig)
    (env' : MetaGrasp.GraspEnv) (h : MetaGrasp.rebuildEnv ctx cfg = some env') :
    env'.sys = ⟨cfg⟩ ∧
    dictLookup ctx "target_radius" = some env'.target_radius ∧
    dictLookup ctx "target_distance" = some env'.target_distance ∧
    dictLookup ctx "target_height" = some env'.target_height := by
  unfold MetaGrasp.rebuildEnv at h
  simp only [bind, Option.bind_eq_some, Option.some.injEq] at h
  obtain ⟨oi, hoi, ti, hti, hi2, hhi, pi2, hpi, tr, htr, td, htd, th, hth, h⟩ := h
  subst h
  exact ⟨rfl, htr, htd, hth⟩

theorem updateContextConfig_sound (ctx : Ctx) (config : MetaGrasp.BraxConfig)
    (env : MetaGrasp.GraspEnv) (cfg : MetaGrasp.BraxConfig)
    (env' : MetaGrasp.GraspEnv)
    (h : MetaGrasp.updateContextConfig ctx config env = some (cfg, env')) :
    MetaGrasp.applyContextToConfig ctx config = some cfg ∧
    MetaGrasp.rebuildEnv ctx cfg = some env' := by
  unfold MetaGrasp.updateContextConfig at h
  simp only [bind, Option.bind_eq_some, Option.some.injEq, Prod.mk.injEq] at h
  obtain ⟨c1, hc1, e1, he1, hc, he⟩ := h
  subst hc
  subst he
  exact ⟨hc1, he1⟩

/-! ### Claim theorems -/

/-- C3: the `DEFAULT_CONTEXT` of `MetaGrasp` is valid with respect to its
`CONTEXT_BOUNDS`: both dictionaries have exactly the same keys (here in
the same order, which implies equality as sets), and every default value
lies within its declared `(lower, upper)` range and conforms to its
declared `int`/`float` type. -/
theorem metaGrasp_default_context_within_bounds :
    MetaGrasp.DEFAULT_CONTEXT.map Prod.fst = MetaGrasp.CONTEXT_BOUNDS.map Prod.fst ∧
    ∀ p ∈ MetaGrasp.DEFAULT_CONTEXT, ∀ b ∈ MetaGrasp.CONTEXT_BOUNDS,
      p.1 = b.1 → MetaGrasp.inBound p.2 b.2 = true := by
  decide

/-- C7: after `MetaMarioEnv.__init__`, the whitelist of context features
eligible for Gaussian noise is exactly the set of `DEFAULT_CONTEXT` keys
that are not categorical: it is `["width", "noise"]`, contains `width`
and `noise`, and does not contain the categorical feature
`level_index`. -/
theorem metaMario_whitelist_gaussian_noise_spec :
    MetaMario.whitelist_gaussian_noise = ["width", "noise"] ∧
    "width" ∈ MetaMario.whitelist_gaussian_noise ∧
    "noise" ∈ MetaMario.whitelist_gaussian_noise ∧
    "level_index" ∉ MetaMario.whitelist_gaussian_noise ∧
    ∀ k, k ∈ MetaMario.whitelist_gaussian_noise ↔
      (k ∈ MetaMario.DEFAULT_CONTEXT.map Prod.fst ∧
        k ∉ MetaMario.CATEGORICAL_CONTEXT_FEATURES) := by
  refine ⟨by decide, by decide, by decide, by decide, ?_⟩
  intro k
  simp [MetaMario.whitelist_gaussian_noise, List.mem_filter]

/-- C8 (counterexample to the claim): `WORLD_PARAMETERS` does not contain
each physics-option name of the five declared groups exactly once: the
two timing parameters occur twice and none of the ten discrete settings
occurs at all, because the source concatenation ends with
`TIMING_PARAMETERS` a second time instead of `DISCRETE_SETTINGS`. -/
theorem world_parameters_repeats_timing_and_omits_discrete :
    WorldParams.WORLD_PARAMETERS.count "timestep" = 2 ∧
    WorldParams.WORLD_PARAMETERS.count "apirate" = 2 ∧
    (∀ k ∈ WorldParams.DISCRETE_SETTINGS, k ∉ WorldParams.WORLD_PARAMETERS) ∧
    ¬ (∀ k ∈ (WorldParams.TIMING_PARAMETERS ++ WorldParams.SOLVER_PARAMETERS
        ++ WorldParams.PHYSICAL_CONSTANTS
        ++ WorldParams.OVERRIDE_CONTACT_SOLVER_PARAMETERS
        ++ WorldParams.DISCRETE_SETTINGS),
          WorldParams.WORLD_PARAMETERS.count k = 1) := by
  decide

/-- C4: each of the three constructors replaces an empty `contexts`
argument by the single default context `{0: DEFAULT_CONTEXT}` and passes
a non-empty `contexts` argument through unchanged (for `CARLMarioEnv`,
whose `DEFAULT_CONTEXT` comes from a module outside these sources, the
default is an explicit argument). -/
theorem constructors_install_default_context :
    (∀ cs : List (Int × Ctx),
      (cs = [] → MetaGrasp.resolveContexts cs = [(0, MetaGrasp.DEFAULT_CONTEXT)]) ∧
      (cs ≠ [] → MetaGrasp.resolveContexts cs = cs)) ∧
    (∀ (d : Ctx) (cs : List (Int × Ctx)),
      (cs = [] → CARLMario.resolveContexts d cs = [(0, d)]) ∧
      (cs ≠ [] → CARLMario.resolveContexts d cs = cs)) ∧
    (∀ cs : List (Int × Ctx),
      (cs = [] → MetaMario.resolveContexts cs = [(0, MetaMario.DEFAULT_CONTEXT)]) ∧
      (cs ≠ [] → MetaMario.resolveContexts cs = cs)) := by
  refine ⟨fun cs => ⟨?_, ?_⟩, fun d cs => ⟨?_, ?_⟩, fun cs => ⟨?_, ?_⟩⟩ <;>
    intro h <;>
    simp [MetaGrasp.resolveContexts, CARLMario.resolveContexts,
      MetaMario.resolveContexts, h]

/-- Witness for C4: the three constructors evaluated on an empty and on a
one-entry contexts dictionary. -/
theorem constructors_install_default_context_witness :
    MetaGrasp.resolveContexts [] = [(0, MetaGrasp.DEFAULT_CONTEXT)] ∧
    MetaGrasp.resolveContexts [(7, [])] = [(7, [])] ∧
    CARLMario.resolveContexts [] [] = [(0, [])] ∧
    CARLMario.resolveContexts [] [(7, [])] = [(7, [])] ∧
    MetaMario.resolveContexts [] = [(0, MetaMario.DEFAULT_CONTEXT)] ∧
    MetaMario.resolveContexts [(7, [])] = [(7, [])] :=
  ⟨(constructors_install_default_context.1 []).1 rfl,
   (constructors_install_default_context.1 [(7, [])]).2 (List.cons_ne_nil _ _),
   (constructors_install_default_context.2.1 [] []).1 rfl,
   (constructors_install_default_context.2.1 [] [(7, [])]).2 (List.cons_ne_nil _ _),
   (constructors_install_default_context.2.2 []).1 rfl,
   (constructors_install_default_context.2.2 [(7, [])]).2 (List.cons_ne_nil _ _)⟩

/-- C5: `CARLDmcEnv._update_context` raises `NotImplementedError` exactly
when `dict_observation_space` is set; otherwise it loads a fresh
dm_control environment for the stored domain and task with the current
context and context mask (with flat observations enabled) and replaces
`self.env` with that environment wrapped in `MujocoToGymWrapper`. -/
theorem carlDmc_update_context_spec :
    ∀ s : CARLDmc.State,
      (s.updateContext = .error .notImplementedError ↔
        s.dict_observation_space = true) ∧
      (s.dict_observation_space = false →
        s.updateContext = .ok { s with
          env := CARLDmc.EnvSlot.mujocoToGym
            (CARLDmc.load_dmc_env s.domain s.task s.context s.context_mask true) }) := by
  intro s
  cases h : s.dict_observation_space <;>
    simp [CARLDmc.State.updateContext, h]

/-- Witness for C5: one state that rebuilds its environment and one that
raises. -/
theorem carlDmc_update_context_spec_witness :
    (CARLDmc.State.updateContext ⟨false, "walker", "walk", [], none, .initial "e"⟩ =
      .ok ⟨false, "walker", "walk", [], none,
        .mujocoToGym (CARLDmc.load_dmc_env "walker" "walk" [] none true)⟩) ∧
    (CARLDmc.State.updateContext ⟨true, "walker", "walk", [], none, .initial "e"⟩ =
      .error .notImplementedError) :=
  ⟨(carlDmc_update_context_spec ⟨false, "walker", "walk", [], none, .initial "e"⟩).2 rfl,
   (carlDmc_update_context_spec ⟨true, "walker", "walk", [], none, .initial "e"⟩).1.mpr rfl⟩

/-- C10: the record of arguments `CARLMarioEnv.__init__` (and likewise
`MetaMarioEnv.__init__`) hands to its superclass does not depend on the
`hide_context` parameter: two runs differing only in `hide_context`
build identical records, with `hide_context=True` and
`scale_context_features="no"` in both. -/
theorem mario_constructors_ignore_hide_context :
    (∀ (d : Ctx) (env : String) (cs : List (Int × Ctx)) (im : String)
       (h1 h2 : Bool) (agn : Bool) (gns : ℚ) (lg : Option String)
       (scf : String) (dc : Option Ctx) (stcf : Option (List String))
       (dos : Bool) (ce : Option String),
      CARLMario.constructSuperArgs d env cs im h1 agn gns lg scf dc stcf dos ce =
        CARLMario.constructSuperArgs d env cs im h2 agn gns lg scf dc stcf dos ce ∧
      (CARLMario.constructSuperArgs d env cs im h1 agn gns lg scf dc stcf dos ce).hide_context
        = true ∧
      (CARLMario.constructSuperArgs d env cs im h1 agn gns lg scf dc stcf dos ce).scale_context_features
        = "no") ∧
    (∀ (env : String) (cs : List (Int × Ctx)) (im : String) (h1 h2 : Bool)
       (agn : Bool) (gns : ℚ) (lg : Option String) (scf : String)
       (dc : Option Ctx),
      MetaMario.constructSuperArgs env cs im h1 agn gns lg scf dc =
        MetaMario.constructSuperArgs env cs im h2 agn gns lg scf dc ∧
      (MetaMario.constructSuperArgs env cs im h1 agn gns lg scf dc).hide_context = true ∧
      (MetaMario.constructSuperArgs env cs im h1 agn gns lg scf dc).scale_context_features
        = "no") := by
  constructor
  · intro d env cs im h1 h2 agn gns lg scf dc stcf dos ce
    exact ⟨rfl, rfl, rfl⟩
  · intro env cs im h1 h2 agn gns lg scf dc
    exact ⟨rfl, rfl, rfl⟩

/-- C1: `MetaGrasp._update_context`, whenever it completes, has injected
the context into the simulator configuration: starting from a copy of the
base config it has set `gravity.z`, `friction` and `angularDamping` from
the context, set `stiffness` and `angularDamping` of every joint and the
`strength` of every actuator from the context, preserved the shape and
remaining fields of the base config, rebuilt `env.sys` from the resulting
config, and copied `target_radius`, `target_distance` and
`target_height` from the context onto the environment. -/
theorem metaGrasp_update_context_injects :
    ∀ (ctx : Ctx) (base : MetaGrasp.BraxConfig) (env : MetaGrasp.GraspEnv)
      (cfg : MetaGrasp.BraxConfig) (env' : MetaGrasp.GraspEnv),
      MetaGrasp.updateContextConfig ctx base env = some (cfg, env') →
      dictLookup ctx "gravity" = some cfg.gravityZ ∧
      dictLookup ctx "friction" = some cfg.friction ∧
      dictLookup ctx "angular_damping" = some cfg.angularDamping ∧
      (∀ j ∈ cfg.joints,
        dictLookup ctx "joint_stiffness" = some j.stiffness ∧
        dictLookup ctx "joint_angular_damping" = some j.angularDamping) ∧
      (∀ a ∈ cfg.actuators, dictLookup ctx "actuator_strength" = some a.strength) ∧
      cfg.joints.length = base.joints.length ∧
      cfg.actuators.length = base.actuators.length ∧
      cfg.bodies.length = base.bodies.length ∧
      cfg.rest = base.rest ∧
      env'.sys = ⟨cfg⟩ ∧
      dictLookup ctx "target_radius" = some env'.target_radius ∧
      dictLookup ctx "target_distance" = some env'.target_distance ∧
      dictLookup ctx "target_height" = some env'.target_height := by
  intro ctx base env cfg env' h
  obtain ⟨happ, hreb⟩ := updateContextConfig_sound ctx base env cfg env' h
  obtain ⟨hg, hfr, had, hjoints, hacts, hblen, hrest⟩ :=
    applyContextToConfig_sound ctx base cfg happ
  obtain ⟨hjlen, hjmem⟩ := updateJoints_sound ctx base.joints cfg.joints hjoints
  obtain ⟨halen, hamem⟩ := updateActuators_sound ctx base.actuators cfg.actuators hacts
  obtain ⟨hsys, htr, htd, hth⟩ := rebuildEnv_sound ctx cfg env' hreb
  refine ⟨hg, hfr, had, ?_, ?_, hjlen, halen, hblen, hrest, hsys, htr, htd, hth⟩
  · intro j hj
    have := hjmem j hj
    exact ⟨this.2, this.1⟩
  · intro a ha
    exact hamem a ha

/-- Witness for C1: the update evaluated on a concrete context and config,
with two of the injected fields read back through the theorem. -/
theorem metaGrasp_update_context_injects_witness :
    MetaGrasp.updateContextConfig graspTestContext graspTestConfig graspTestEnv =
      some (graspTestConfigUpdated, graspTestStateUpdated.env) ∧
    dictLookup graspTestContext "gravity" = some graspTestConfigUpdated.gravityZ ∧
    dictLookup graspTestContext "target_height" =
      some graspTestStateUpdated.env.target_height := by
  have h := metaGrasp_update_context_injects graspTestContext graspTestConfig
    graspTestEnv graspTestConfigUpdated graspTestStateUpdated.env rfl
  exact ⟨rfl, h.1, h.2.2.2.2.2.2.2.2.2.2.2.2⟩

/-- C2 (the key lookup that fails): for every context whose keys are
exactly the keys of the `MetaGrasp` default context,
`_update_context` does not complete: the lookup of `torso_mass`, a key
the default context does not carry, fails. -/
theorem metaGrasp_update_fails_on_default_keys :
    ∀ (ctx : Ctx) (base : MetaGrasp.BraxConfig) (env : MetaGrasp.GraspEnv),
      ctx.map Prod.fst = MetaGrasp.DEFAULT_CONTEXT.map Prod.fst →
      MetaGrasp.updateContextConfig ctx base env = none := by
  intro ctx base env hkeys
  have htm : dictLookup ctx "torso_mass" = none := by
    unfold dictLookup
    rw [Option.map_eq_none', List.find?_eq_none]
    intro p hp
    have hpk : p.1 ∈ ctx.map Prod.fst := List.mem_map_of_mem _ hp
    rw [hkeys] at hpk
    simp only [beq_iff_eq]
    intro hq
    rw [hq] at hpk
    revert hpk
    decide
  unfold MetaGrasp.updateContextConfig
  rw [applyContextToConfig_none ctx base htm]
  rfl

/-- Witness for C2: the reconfiguration evaluated at the default context
itself returns the failure value. -/
theorem metaGrasp_update_fails_on_default_keys_witness :
    MetaGrasp.updateContextConfig MetaGrasp.DEFAULT_CONTEXT graspTestConfig
      graspTestEnv = none :=
  metaGrasp_update_fails_on_default_keys MetaGrasp.DEFAULT_CONTEXT graspTestConfig
    graspTestEnv rfl

/-- C9: the `_update_context` method of `MetaGrasp` never mutates the
stored `base_config` (all edits are applied to a deep copy) nor the
current context: whenever the call completes, both are unchanged, even
though the environment fields are replaced. -/
theorem metaGrasp_update_preserves_base_config :
    ∀ s s' : MetaGrasp.State, s.updateContext = some s' →
      s'.base_config = s.base_config ∧ s'.context = s.context := by
  intro s s' h
  simp only [MetaGrasp.State.updateContext, bind, Option.bind_eq_some,
    Option.some.injEq] at h
  obtain ⟨⟨cfg, env⟩, hupd, hs⟩ := h
  subst hs
  exact ⟨rfl, rfl⟩

/-- Witness for C9: a concrete state on which the update succeeds,
replacing the environment while leaving `base_config` untouched. -/
theorem metaGrasp_update_preserves_base_config_witness :
    graspTestState.updateContext = some graspTestStateUpdated ∧
    graspTestStateUpdated.base_config = graspTestState.base_config ∧
    graspTestStateUpdated.context = graspTestState.context := by
  have h := metaGrasp_update_preserves_base_config graspTestState
    graspTestStateUpdated rfl
  exact ⟨rfl, h.1, h.2⟩

theorem generateAll_sound :
    ∀ cs ls, CARLMario.generateAll cs = some ls →
      ls.length = cs.length ∧
      ∀ i (hi : i < cs.length), ∃ li no,
        dictLookup (cs.get ⟨i, hi⟩).2 "level_index" = some li ∧
        dictLookup (cs.get ⟨i, hi⟩).2 "noise" = some no ∧
        ls.get? i = some (generate_level CARLMario.INITIAL_WIDTH
          CARLMario.INITIAL_HEIGHT li no (some true)) := by
  intro cs
  induction cs with
  | nil =>
    intro ls h
    simp only [CARLMario.generateAll, Option.some.injEq] at h
    subst h
    exact ⟨rfl, fun i hi => absurd hi (by simp)⟩
  | cons c tl ih =>
    intro ls h
    obtain ⟨k, ctx⟩ := c
    simp only [CARLMario.generateAll, bind, Option.bind_eq_some, Option.some.injEq] at h
    obtain ⟨li, hli, no, hno, tl', htl, hcons⟩ := h
    obtain ⟨hlen, hidx⟩ := ih tl' htl
    subst hcons
    refine ⟨by simp [hlen], ?_⟩
    intro i hi
    cases i with
    | zero => exact ⟨li, no, hli, hno, rfl⟩
    | succ n =>
      have hn : n < tl.length := by simpa using hi
      obtain ⟨li2, no2, h1, h2, h3⟩ := hidx n hn
      exact ⟨li2, no2, h1, h2, by simpa using h3⟩

/-- C6: whenever `CARLMarioEnv._update_context` completes, the level cache
is generated at most once: a non-empty `self.levels` is left unchanged,
while an empty one is filled with one level per stored context, in
iteration order of `self.contexts` and with `filter_unplayable=True`;
every call copies `mario_state` and `mario_inertia` from the current
context onto the environment and sets `env.levels` to the one-element
list `[self.levels[self.context_index]]` (the remaining state fields are
untouched, so any later call finds the cache non-empty). -/
theorem carlMario_update_context_spec :
    ∀ s s' : CARLMario.State, s.updateContext = some s' →
      (s.levels ≠ [] → s'.levels = s.levels) ∧
      (s.levels = [] →
        CARLMario.generateAll s.contexts = some s'.levels ∧
        s'.levels.length = s.contexts.length ∧
        ∀ i (hi : i < s.contexts.length), ∃ li no,
          dictLookup (s.contexts.get ⟨i, hi⟩).2 "level_index" = some li ∧
          dictLookup (s.contexts.get ⟨i, hi⟩).2 "noise" = some no ∧
          s'.levels.get? i = some (generate_level CARLMario.INITIAL_WIDTH
            CARLMario.INITIAL_HEIGHT li no (some true))) ∧
      dictLookup s.context "mario_state" = some s'.env.mario_state ∧
      dictLookup s.context "mario_inertia" = some s'.env.mario_inertia ∧
      (∃ lvl, s'.levels.get? s.context_index = some lvl ∧ s'.env.levels = [lvl]) ∧
      s'.levels ≠ [] ∧
      s'.contexts = s.contexts ∧ s'.context_index = s.context_index ∧
      s'.context = s.context := by
  intro s s' h
  unfold CARLMario.State.updateContext at h
  cases hemp : s.levels.isEmpty with
  | true =>
    have hnil : s.levels = [] := by simpa [List.isEmpty_iff] using hemp
    rw [hemp, if_pos rfl] at h
    simp only [bind, Option.bind_eq_some, Option.some.injEq] at h
    obtain ⟨levels, hlev, ms, hms, mi, hmi, lvl, hlvl, hs⟩ := h
    subst hs
    have hnonempty : levels ≠ [] := by
      intro hn
      rw [hn] at hlvl
      simp at hlvl
    obtain ⟨hlen, hidx⟩ := generateAll_sound s.contexts levels hlev
    exact ⟨fun hne => absurd hnil hne, fun _ => ⟨hlev, hlen, hidx⟩, hms, hmi,
      ⟨lvl, hlvl, rfl⟩, hnonempty, rfl, rfl, rfl⟩
  | false =>
    have hne : s.levels ≠ [] := by simpa [List.isEmpty_iff] using hemp
    rw [hemp, if_neg Bool.false_ne_true] at h
    simp only [bind, Option.bind_eq_some, Option.some.injEq] at h
    obtain ⟨levels, hlev, ms, hms, mi, hmi, lvl, hlvl, hs⟩ := h
    subst hs
    have hlevels : levels = s.levels := by simpa using hlev.symm
    subst hlevels
    exact ⟨fun _ => rfl, fun hnil => absurd hnil hne, hms, hmi,
      ⟨lvl, hlvl, rfl⟩, hne, rfl, rfl, rfl⟩

/-- Witness for C6: a concrete state with an empty cache and one stored
context, on which the update generates the single level and installs
it. -/
theorem carlMario_update_context_spec_witness :
    marioTestState.updateContext = some marioTestStateUpdated ∧
    marioTestStateUpdated.levels = [marioTestLevel] ∧
    dictLookup marioTestState.context "mario_state" =
      some marioTestStateUpdated.env.mario_state ∧
    marioTestStateUpdated.env.levels = [marioTestLevel] := by
  have h := carlMario_update_context_spec marioTestState marioTestStateUpdated rfl
  exact ⟨rfl, rfl, h.2.2.1, rfl⟩

/-- Witness for C3: the bound check of the theorem evaluated at the
`joint_stiffness` entry. -/
theorem metaGrasp_default_context_within_bounds_witness :
    MetaGrasp.inBound (PyVal.int 5000) ⟨some 1, none, PyTy.int⟩ = true :=
  metaGrasp_default_context_within_bounds.2 ("joint_stiffness", .int 5000)
    (by decide) ("joint_stiffness", ⟨some 1, none, .int⟩) (by decide) rfl

/-- Witness for C7: the membership characterisation of the theorem
evaluated at the feature `width`. -/
theorem metaMario_whitelist_gaussian_noise_spec_witness :
    "width" ∈ MetaMario.DEFAULT_CONTEXT.map Prod.fst ∧
    "width" ∉ MetaMario.CATEGORICAL_CONTEXT_FEATURES :=
  (metaMario_whitelist_gaussian_noise_spec.2.2.2.2 "width").mp (by decide)

/-- Witness for C8: the theorem evaluated at the discrete setting
`integrator`, which the constant misses. -/
theorem world_parameters_repeats_timing_and_omits_discrete_witness :
    "integrator" ∉ WorldParams.WORLD_PARAMETERS :=
  world_parameters_repeats_timing_and_omits_discrete.2.2.1 "integrator" (by decide)
